import Mathlib

set_option maxRecDepth 8192

/-!
Verification of the CLI pipelines of the `tmo-api-python` repository
(`src/tmo_api/cli/__init__.py`), shallowly embedded in Lean 4.

Python values flowing through the renderer are modelled by the inductive
type `PyVal`; Python strings are modelled by Lean `String` (a list of
unicode code points, matching CPython `str`, where `len` counts code
points).  Fallible Python functions (those that may `raise`) are modelled
as functions into `PyResult`.
-/

namespace TmoApi

/-- Result type for Python functions that can raise: `ok` is a normal
return, `err` is a raised exception. -/
inductive PyResult (ε α : Type) where
  | ok (a : α)
  | err (e : ε)
deriving DecidableEq, Repr

/-- Model of a Python runtime value, covering the shapes the CLI
formatter dispatches on: `None`, `bool`, `int`, `str`, `list`, `dict`
(insertion-ordered string-keyed mapping, modelled as an association
list) and `obj` (an object carrying a `__dict__` attribute mapping). -/
inductive PyVal where
  | none
  | bool (b : Bool)
  | int (n : Int)
  | str (s : String)
  | list (items : List PyVal)
  | dict (fields : List (String × PyVal))
  | obj (attrs : List (String × PyVal))

/-- Python `value is None`. -/
def PyVal.isNone : PyVal → Bool
  | .none => true
  | _ => false

/-- Characters matched by Python's regex class `\s` on `str` patterns
(Unicode whitespace: ASCII whitespace, the information separators
U+001C..U+001F, NEL, NBSP, and the Unicode space separators). -/
def pyIsSpace (c : Char) : Bool :=
  c == ' ' || c == Char.ofNat 0x09 || c == Char.ofNat 0x0a ||
  c == Char.ofNat 0x0b || c == Char.ofNat 0x0c || c == Char.ofNat 0x0d ||
  c == Char.ofNat 0x1c || c == Char.ofNat 0x1d || c == Char.ofNat 0x1e ||
  c == Char.ofNat 0x1f || c == Char.ofNat 0x85 || c == Char.ofNat 0xa0 ||
  c == Char.ofNat 0x1680 || (0x2000 ≤ c.toNat && c.toNat ≤ 0x200a) ||
  c == Char.ofNat 0x2028 || c == Char.ofNat 0x2029 || c == Char.ofNat 0x202f ||
  c == Char.ofNat 0x205f || c == Char.ofNat 0x3000

/-- ASCII lower-casing of one character, as `str.lower` acts on ASCII.
(CPython lower-cases the full Unicode range; every string occurring in
the source's field-name deny list and environment alias table is ASCII,
and for those tables the two notions of lower-casing select the same
entries.) -/
def pyLowerChar (c : Char) : Char :=
  if 'A' ≤ c && c ≤ 'Z' then Char.ofNat (c.toNat + 32) else c

/-- Model of Python `str.lower` (see `pyLowerChar`). -/
def pyLower (s : String) : String :=
  String.mk (s.data.map pyLowerChar)

/-- Python's substring containment `needle in hay`, on code-point lists. -/
def hasSubstring (needle : List Char) : List Char → Bool
  | [] => needle.isEmpty
  | c :: rest => needle.isPrefixOf (c :: rest) || hasSubstring needle rest

/-- Python truthiness of an optional string: `None` and the empty string
are falsy, any other string is truthy. -/
def truthyStr : Option String → Bool
  | Option.none => false
  | some s => !s.data.isEmpty

/-- Lower-case hexadecimal digit. -/
def hexDigit (n : Nat) : Char :=
  if n < 10 then Char.ofNat (48 + n) else Char.ofNat (87 + n)

/-- Two lower-case hex digits of a byte. -/
def hexDigits2 (n : Nat) : List Char :=
  [hexDigit (n / 16 % 16), hexDigit (n % 16)]

/-- Four lower-case hex digits. -/
def hexDigits4 (n : Nat) : List Char :=
  [hexDigit (n / 4096 % 16), hexDigit (n / 256 % 16), hexDigit (n / 16 % 16), hexDigit (n % 16)]

/-- Escaping of one character inside a Python string `repr` using quote
character `q`.  (CPython additionally escapes non-printable characters
above U+007F via its Unicode tables; such characters are modelled as
printable here — no claim involves them.) -/
def pyReprEsc (q : Char) (c : Char) : List Char :=
  if c == '\\' then ['\\', '\\']
  else if c == q then ['\\', q]
  else if c == Char.ofNat 0x0a then ['\\', 'n']
  else if c == Char.ofNat 0x0d then ['\\', 'r']
  else if c == Char.ofNat 0x09 then ['\\', 't']
  else if c.toNat < 0x20 || c.toNat == 0x7f then '\\' :: 'x' :: hexDigits2 c.toNat
  else [c]

/-- Python `repr` of a string: single-quoted, unless the string contains
a single quote and no double quote, in which case it is double-quoted. -/
def pyReprStr (s : String) : String :=
  let sq : Char := Char.ofNat 39
  let dq : Char := Char.ofNat 34
  let q : Char := if s.data.any (fun c => c == sq) && !s.data.any (fun c => c == dq)
    then dq else sq
  String.mk (q :: (s.data.map (pyReprEsc q)).flatten ++ [q])

/-- Placeholder for Python `str` of an arbitrary object: CPython prints
`<module.Class object at 0x...>` with a memory address, which has no
shallow-embedding counterpart.  No claim depends on this string; it only
keeps `pyStr` total. -/
def objPlaceholder : String := "<object>"

mutual

/-- Python `repr` of a modelled value. -/
def pyRepr : PyVal → String
  | .none => "None"
  | .bool b => if b then "True" else "False"
  | .int n => toString n
  | .str s => pyReprStr s
  | .list xs => "[" ++ String.intercalate ", " (pyReprList xs) ++ "]"
  | .dict fs => "\x7b" ++ String.intercalate ", " (pyReprFields fs) ++ "\x7d"
  | .obj _ => objPlaceholder

/-- `repr` of each element of a list. -/
def pyReprList : List PyVal → List String
  | [] => []
  | v :: vs => pyRepr v :: pyReprList vs

/-- `repr(key): repr(value)` for each entry of a dict. -/
def pyReprFields : List (String × PyVal) → List String
  | [] => []
  | kv :: fs => (pyReprStr kv.1 ++ ": " ++ pyRepr kv.2) :: pyReprFields fs

end

/-- Python `str` of a modelled value: a string is returned as-is, any
other value prints as its `repr` (which coincides with `str` for `None`,
booleans, integers, lists and dicts). -/
def pyStr : PyVal → String
  | .str s => s
  | v => pyRepr v

/-- `\uXXXX` escape (with a surrogate pair above U+FFFF), as produced by
`json.dumps` with its default `ensure_ascii=True`. -/
def jsonEscU (n : Nat) : List Char :=
  if n < 0x10000 then '\\' :: 'u' :: hexDigits4 n
  else
    let m := n - 0x10000
    ('\\' :: 'u' :: hexDigits4 (0xd800 + m / 0x400)) ++
      ('\\' :: 'u' :: hexDigits4 (0xdc00 + m % 0x400))

/-- Escaping of one character inside a JSON string produced by
`json.dumps` (default options: `ensure_ascii=True`, so every character
outside U+0020..U+007E is escaped). -/
def jsonEscChar (c : Char) : List Char :=
  if c == Char.ofNat 34 then ['\\', Char.ofNat 34]
  else if c == '\\' then ['\\', '\\']
  else if c == Char.ofNat 0x0a then ['\\', 'n']
  else if c == Char.ofNat 0x0d then ['\\', 'r']
  else if c == Char.ofNat 0x09 then ['\\', 't']
  else if c == Char.ofNat 0x08 then ['\\', 'b']
  else if c == Char.ofNat 0x0c then ['\\', 'f']
  else if c.toNat < 0x20 || 0x7e < c.toNat then jsonEscU c.toNat
  else [c]

/-- JSON serialization of a string by `json.dumps`. -/
def jsonStr (s : String) : String :=
  String.mk (Char.ofNat 34 :: (s.data.map jsonEscChar).flatten ++ [Char.ofNat 34])

mutual

/-- Model of `json.dumps(value, default=str)` with no indent: item
separator `", "`, key separator `": "`; a non-serializable object is
rendered through `default=str`, i.e. as the JSON string of its `str`. -/
def jsonDumps : PyVal → String
  | .none => "null"
  | .bool b => if b then "true" else "false"
  | .int n => toString n
  | .str s => jsonStr s
  | .list xs => "[" ++ String.intercalate ", " (jsonDumpsList xs) ++ "]"
  | .dict fs => "\x7b" ++ String.intercalate ", " (jsonDumpsFields fs) ++ "\x7d"
  | .obj attrs => jsonStr (pyStr (.obj attrs))

/-- `json.dumps` of each element of a list. -/
def jsonDumpsList : List PyVal → List String
  | [] => []
  | v :: vs => jsonDumps v :: jsonDumpsList vs

/-- `"key": value` JSON rendering for each entry of a dict. -/
def jsonDumpsFields : List (String × PyVal) → List String
  | [] => []
  | kv :: fs => (jsonStr kv.1 ++ ": " ++ jsonDumps kv.2) :: jsonDumpsFields fs

end

/-!
`is_binary_field` (source lines 248-288).
-/

/-- The fixed deny list of known binary/blob field names
(source lines 259-268). -/
def binary_field_names : List String :=
  ["Cert_TemplateFile", "TemplateFile", "FileContent", "BinaryData",
   "ImageData", "DocumentData", "AttachmentData", "FileData"]

/-- The field-name test of `is_binary_field` (source lines 271-273):
`any(binary_name.lower() in field_name.lower() for ...)`. -/
def nameIndicatesBinary (field_name : String) : Bool :=
  binary_field_names.any fun b =>
    hasSubstring (pyLower b).data (pyLower field_name).data

/-- One character of the class `[A-Za-z0-9+/=\s]` used by the base64
heuristic (source line 278). -/
def b64Char (c : Char) : Bool :=
  ('A' ≤ c && c ≤ 'Z') || ('a' ≤ c && c ≤ 'z') || ('0' ≤ c && c ≤ '9') ||
  c == '+' || c == '/' || c == '=' || pyIsSpace c

/-- `re.match(r"^[A-Za-z0-9+/=\s]+$", s)` viewed as a boolean: the
string is non-empty and every character belongs to the class.  (`$` also
matching before a final newline makes no difference here because `\n` is
itself in the class.) -/
def b64Match (s : String) : Bool :=
  !s.data.isEmpty && s.data.all b64Char

/-- Model of `is_binary_field(field_name, field_value)`
(source lines 248-288): deny-listed name, else the long-base64-string
heuristic for string values, else the long-first-element heuristic for
list values. -/
def is_binary_field (field_name : String) (field_value : PyVal) : Bool :=
  if nameIndicatesBinary field_name then true
  else if (match field_value with
      | .str s => decide (100 < s.length) && (b64Match s && decide (200 < s.length))
      | _ => false) then true
  else match field_value with
    | .list (first :: _) =>
      (match first with
       | .str s => decide (100 < s.length)
       | _ => false)
    | _ => false

/-!
Configuration resolution: `resolve_config_values` (source lines 82-150)
and the environment mapping of `create_client_from_args`
(source lines 168-178).

The persisted profile store (the parsed `~/.tmorc` file) is modelled as
an association list of named sections, each section an association list
of string keys to string values (keys lower-cased by `configparser`'s
option transform, values interpolation-free).  The process environment
is modelled by the two variables the function reads.
-/

/-- One parsed section of the profile store. -/
abbrev IniSection := List (String × String)

/-- The parsed profile store: section name to section, in file order. -/
abbrev IniStore := List (String × IniSection)

/-- The command-line arguments `resolve_config_values` reads.  A field
is `none` when the corresponding attribute is `None` (argparse default
for an unsupplied option). -/
structure CliArgs where
  profile : Option String
  token : Option String
  database : Option String
  environment : Option String
deriving DecidableEq, Repr

/-- The two environment variables consumed during resolution. -/
structure EnvVars where
  tmo_api_token : Option String
  tmo_database : Option String
deriving DecidableEq, Repr

/-- The `values` dictionary built by `resolve_config_values`:
`token`/`database` may be `None` mid-resolution, `environment` is always
a string, `timeout` an integer. -/
structure Values where
  token : Option String
  database : Option String
  environment : String
  timeout : Int
deriving DecidableEq, Repr

/-- The exceptions `resolve_config_values` can raise.  The first three
are `ValidationError`s (source lines 120, 142, 146); `intParseError` is
the `ValueError` that `configparser`'s `SectionProxy.getint` raises when
the stored `timeout` value is present but not parsable as an integer
(its `fallback` argument only covers a missing option). -/
inductive ResolveErr where
  | profileNotFound (available : List String)
  | tokenRequired
  | databaseRequired
  | intParseError
deriving DecidableEq, Repr

/-- Whether the raised exception is a `ValidationError` (of
`tmo_api.exceptions`), as opposed to the built-in `ValueError`. -/
def isValidationErr : ResolveErr → Bool
  | .intParseError => false
  | _ => true

/-- Digit run accepted by CPython `int(str)`: digits with single
underscores strictly between digits. -/
def digitsWithUnderscores : List Char → Bool
  | [] => false
  | [c] => c.isDigit
  | c :: c2 :: rest =>
    c.isDigit &&
      (if c2 == '_' then
        (match rest with
         | [] => false
         | _ => digitsWithUnderscores rest)
       else digitsWithUnderscores (c2 :: rest))

/-- Numeric value of a digit run (underscores skipped). -/
def digitsValue (l : List Char) : Nat :=
  (l.filter (fun c => c != '_')).foldl (fun acc c => 10 * acc + (c.toNat - 48)) 0

/-- Model of CPython `int(s)` for a string argument: optional
surrounding whitespace, optional sign, then an ASCII digit run; `none`
models the `ValueError` raised otherwise.  (CPython also accepts
non-ASCII decimal digits; no claim involves them.) -/
def pyInt? (s : String) : Option Int :=
  let t := ((s.data.dropWhile pyIsSpace).reverse.dropWhile pyIsSpace).reverse
  let signDigits : Int × List Char :=
    match t with
    | '+' :: rest => (1, rest)
    | '-' :: rest => (-1, rest)
    | _ => (1, t)
  if digitsWithUnderscores signDigits.2 then
    some (signDigits.1 * (digitsValue signDigits.2 : Int))
  else Option.none

/-- Built-in demo credentials (source lines 20-21). -/
def DEMO_TOKEN : String := "TMO"

/-- Built-in demo database (source line 21). -/
def DEMO_DATABASE : String := "API Sandbox"

/-- Stage 1 of `resolve_config_values` (source lines 98-124): seed the
`values` dict from the selected profile section if it exists, else from
the built-in demo credentials for profile `demo`, else fail. -/
def seedValues (store : IniStore) (profile : String) : PyResult ResolveErr Values :=
  match store.lookup profile with
  | some sect =>
    -- `profile_section.getint("timeout", 30)`: fallback 30 only when
    -- the option is missing; an unparsable value raises ValueError.
    match (match sect.lookup "timeout" with
           | Option.none => some (30 : Int)
           | some ts => pyInt? ts) with
    | some t =>
      .ok { token := sect.lookup "token",
            database := sect.lookup "database",
            environment := (sect.lookup "environment").getD "us",
            timeout := t }
    | Option.none => .err .intParseError
  | Option.none =>
    if profile == "demo" then
      .ok { token := some DEMO_TOKEN, database := some DEMO_DATABASE,
            environment := "us", timeout := 30 }
    else .err (.profileNotFound (store.map Prod.fst))

/-- Stage 2 of `resolve_config_values` (source lines 126-132): apply
truthy command-line overrides. -/
def applyOverrides (args : CliArgs) (v0 : Values) : Values :=
  { token := if truthyStr args.token then args.token else v0.token,
    database := if truthyStr args.database then args.database else v0.database,
    environment := if truthyStr args.environment
      then args.environment.getD v0.environment else v0.environment,
    timeout := v0.timeout }

/-- Stage 3 of `resolve_config_values` (source lines 134-138): fall
back to the environment variables for still-falsy token/database. -/
def applyEnvFallback (env : EnvVars) (v1 : Values) : Values :=
  { v1 with
    token := if truthyStr v1.token then v1.token else env.tmo_api_token,
    database := if truthyStr v1.database then v1.database else env.tmo_database }

/-- Model of `resolve_config_values(args)` (source lines 82-150), with
the ambient profile store and process environment passed explicitly:
seeding, truthy CLI overrides, environment-variable fallback, then
validation of `token` and `database` as truthy. -/
def resolve_config_values (store : IniStore) (args : CliArgs) (env : EnvVars) :
    PyResult ResolveErr Values :=
  match seedValues store (args.profile.getD "demo") with
  | .err e => .err e
  | .ok v0 =>
    let v2 := applyEnvFallback env (applyOverrides args v0)
    -- stage 4 (source lines 140-150): validate token and database
    if !truthyStr v2.token then .err .tokenRequired
    else if !truthyStr v2.database then .err .databaseRequired
    else .ok v2

/-- Modelled from the spec: the `Environment` enum of
`tmo_api.environments` (not under `src/`), "one of a fixed enumerated
set" {US, CANADA, AUSTRALIA}. -/
inductive Environment where
  | US
  | CANADA
  | AUSTRALIA
deriving DecidableEq, Repr

/-- The `env_map` alias table of `create_client_from_args`
(source lines 169-176). -/
def env_map : List (String × Environment) :=
  [("us", .US), ("usa", .US), ("can", .CANADA), ("canada", .CANADA),
   ("aus", .AUSTRALIA), ("australia", .AUSTRALIA)]

/-- The environment-string mapping of `create_client_from_args`
(source line 178): `env_map.get(environment.lower(), Environment.US)`. -/
def mapEnvironmentString (s : String) : Environment :=
  (env_map.lookup (pyLower s)).getD .US

/-!
Date-range normalization: `apply_default_date_ranges`
(source lines 191-245).

Calendar dates are represented by their day number relative to
1970-01-01 (proleptic Gregorian), computed by the standard closed-form
civil-calendar conversions.  `datetime.now()` carries a time of day
`t ∈ [0, 1 day)` on top of its date `n`; every parsed date sits at
midnight of its day `e`.  Each comparison the source makes has the form
`parsed > now + timedelta(days=1)`, i.e. `(e, 0) > (n + 1, t)`
lexicographically, which holds iff `e ≥ n + 2` — independently of `t`.
Likewise `now ± timedelta(days=31)` lands on day `n ± 31` with the same
time of day, so `strftime("%m/%d/%Y")` of it prints day `n ± 31`.  The
whole function therefore factors through day numbers, and `today` is
modelled as the day number of `datetime.now()`.
-/

/-- Gregorian leap year. -/
def isLeapYear (y : Nat) : Bool :=
  (y % 4 == 0 && y % 100 != 0) || y % 400 == 0

/-- Length of a month (`y ≥ 1`, `1 ≤ m ≤ 12`). -/
def daysInMonth (y m : Nat) : Nat :=
  if m == 2 then (if isLeapYear y then 29 else 28)
  else if m == 4 || m == 6 || m == 9 || m == 11 then 30
  else 31

/-- Day number of the civil date `y-m-d` relative to 1970-01-01
(days-from-civil closed form; exact for `y ≥ 1`). -/
def toOrdinal (y m d : Nat) : Int :=
  let yAdj : Int := if m ≤ 2 then (y : Int) - 1 else (y : Int)
  let era : Int := Int.ediv yAdj 400
  let yoe : Int := yAdj - era * 400
  let mp : Nat := (m + 9) % 12
  let doy : Int := ((153 * mp + 2) / 5 + d - 1 : Nat)
  let doe : Int := yoe * 365 + Int.ediv yoe 4 - Int.ediv yoe 100 + doy
  era * 146097 + doe - 719468

/-- Civil date `(y, m, d)` of a day number (civil-from-days closed
form, the inverse of `toOrdinal`). -/
def fromOrdinal (z0 : Int) : Nat × Nat × Nat :=
  let z : Int := z0 + 719468
  let era : Int := Int.ediv z 146097
  let doe : Nat := (Int.emod z 146097).toNat
  let yoe : Nat := (doe - doe / 1460 + doe / 36524 - doe / 146096) / 365
  let y : Int := (yoe : Int) + era * 400
  let doy : Nat := doe - (365 * yoe + yoe / 4 - yoe / 100)
  let mp : Nat := (5 * doy + 2) / 153
  let d : Nat := doy - (153 * mp + 2) / 5 + 1
  let m : Nat := if mp < 10 then mp + 3 else mp - 9
  (((if m ≤ 2 then y + 1 else y)).toNat, m, d)

/-- Decimal digits of `n`, zero-padded on the left to width `w`. -/
def padNat (w n : Nat) : String :=
  let ds := toString n
  String.mk (List.replicate (w - ds.length) '0') ++ ds

/-- Model of `date.strftime("%m/%d/%Y")` on the date with day number
`z`: two-digit month and day, four-digit year.  (glibc prints `%Y`
without padding; the distinction only shows for years before 1000,
which no modelled computation produces.) -/
def formatDate (z : Int) : String :=
  let ymd := fromOrdinal z
  padNat 2 ymd.2.1 ++ "/" ++ padNat 2 ymd.2.2 ++ "/" ++ padNat 4 ymd.1

/-- All-ASCII-digit test of a code-point list. -/
def allDigits (l : List Char) : Bool :=
  !l.isEmpty && l.all Char.isDigit

/-- Numeric value of an ASCII digit list. -/
def digitsToNat (l : List Char) : Nat :=
  l.foldl (fun acc c => 10 * acc + (c.toNat - 48)) 0

/-- Splitting of a code-point list at `/`, mirroring how
`strptime("%m/%d/%Y")`'s compiled regex segments its input (none of the
three component patterns can match a `/`). -/
def splitSlash (l : List Char) : List (List Char) :=
  match l with
  | [] => [[]]
  | '/' :: rest => [] :: splitSlash rest
  | c :: rest =>
    match splitSlash rest with
    | [] => [[c]]
    | p :: ps => (c :: p) :: ps

/-- Model of `datetime.strptime(s, "%m/%d/%Y")` returning the day
number of the parsed date, or `none` for the `ValueError` path.  The
`%m` pattern accepts one or two ASCII digits valued 1..12, `%d`
likewise valued 1..31, `%Y` exactly four digits; the `datetime`
constructor then rejects day numbers beyond the month length and year
0.  (CPython's `\d` in `%Y` also accepts non-ASCII decimal digits; no
claim involves them.) -/
def parseDate (s : String) : Option Int :=
  match splitSlash s.data with
  | [ms, ds, ys] =>
    if allDigits ms && decide (ms.length ≤ 2) &&
        (1 ≤ digitsToNat ms && digitsToNat ms ≤ 12) &&
        allDigits ds && decide (ds.length ≤ 2) &&
        (1 ≤ digitsToNat ds && digitsToNat ds ≤ 31) &&
        allDigits ys && decide (ys.length = 4) &&
        decide (1 ≤ digitsToNat ys) &&
        decide (digitsToNat ds ≤ daysInMonth (digitsToNat ys) (digitsToNat ms)) then
      some (toOrdinal (digitsToNat ys) (digitsToNat ms) (digitsToNat ds))
    else Option.none
  | _ => Option.none

/-- The date arguments `apply_default_date_ranges` reads and mutates:
`start_date`/`end_date` attributes (strings, or `None` when
unsupplied), and the `_used_default_dates` marker it may set. -/
structure DateArgs where
  start_date : Option String
  end_date : Option String
  used_default_dates : Bool
deriving DecidableEq, Repr

/-- The `ValidationError`s `apply_default_date_ranges` can raise:
`endTooLate` carries today's formatted date as interpolated into the
message (source lines 217-219, 241-243); the other two are the fixed
format messages (source lines 222, 234, 245). -/
inductive DateError where
  | endTooLate (todayStr : String)
  | endFormatInvalid
  | startFormatInvalid
deriving DecidableEq, Repr

/-- Model of `apply_default_date_ranges(args)` (source lines 191-245),
with `today` the day number of `datetime.now()` (see the section
comment for the elimination of the time of day).  Branch order follows
the source: neither date, only end, only start, both.  In the branches
that parse a date, truthiness of the corresponding option guarantees it
is a present string, extracted with `getD ""`. -/
def apply_default_date_ranges (today : Int) (args : DateArgs) :
    PyResult DateError DateArgs :=
  if !truthyStr args.start_date && !truthyStr args.end_date then
    .ok { start_date := some (formatDate (today - 31)),
          end_date := some (formatDate today),
          used_default_dates := true }
  else if truthyStr args.end_date && !truthyStr args.start_date then
    match parseDate (args.end_date.getD "") with
    | Option.none => .err .endFormatInvalid
    | some e =>
      if today + 2 ≤ e then .err (.endTooLate (formatDate today))
      else .ok { args with start_date := some (formatDate (e - 31)) }
  else if truthyStr args.start_date && !truthyStr args.end_date then
    match parseDate (args.start_date.getD "") with
    | Option.none => .err .startFormatInvalid
    | some s =>
      .ok { args with
            end_date := some (formatDate
              (if today + 2 ≤ s + 31 then today else s + 31)) }
  else
    match parseDate (args.end_date.getD "") with
    | Option.none => .err .endFormatInvalid
    | some e =>
      if today + 2 ≤ e then .err (.endTooLate (formatDate today))
      else .ok args

/-!
Text-mode output rendering: `format_table_output`
(source lines 324-440) and `format_multiline_table`
(source lines 443-490).
-/

/-- The attribute filter of the object branches (source lines 352 and
374): keep an attribute unless its name starts with `_`, equals
`raw_data`, or its value is `None`. -/
def keepAttr (kv : String × PyVal) : Bool :=
  (match kv.1.data with
   | c :: _ => c != '_'
   | [] => true) && kv.1 != "raw_data" && !kv.2.isNone

/-- The `[BINARY DATA - N bytes]` placeholder, with `N` the code-point
length of `str(value)` (source lines 339, 358, 376, 385). -/
def binaryPlaceholder (v : PyVal) : String :=
  "[BINARY DATA - " ++ toString (pyStr v).length ++ " bytes]"

/-- Replacement of one field by the binary placeholder when
`is_binary_field` matches (source lines 375-378, 384-387). -/
def binReplace (kv : String × PyVal) : String × PyVal :=
  if is_binary_field kv.1 kv.2 then (kv.1, .str (binaryPlaceholder kv.2)) else kv

/-- Flattening of one element of a rendered sequence into the dict
appended to `dict_data` (source lines 369-390): an object contributes
its filtered, binary-replaced `__dict__`; a dict is binary-replaced
as-is (no attribute filtering, no dropping of `None` values); any other
value is wrapped as `{"value": item}`. -/
def processItem : PyVal → List (String × PyVal)
  | .obj attrs => (attrs.filter keepAttr).map binReplace
  | .dict fields => fields.map binReplace
  | v => [("value", v)]

/-- One `key: value` line of the single-record branches
(source lines 336-344 and 355-363): binary fields render as the
placeholder, nested dict/list values are JSON-stringified in place, other
values print via `str`. -/
def kvLine (kv : String × PyVal) : String :=
  if is_binary_field kv.1 kv.2 then
    kv.1 ++ ": " ++ binaryPlaceholder kv.2
  else
    kv.1 ++ ": " ++
      (match kv.2 with
       | .dict _ => jsonDumps kv.2
       | .list _ => jsonDumps kv.2
       | v => pyStr v)

/-- The key-value listing of a single record. -/
def renderKV (fields : List (String × PyVal)) : String :=
  String.intercalate "\n" (fields.map kvLine)

/-- Python `str.ljust`: pad on the right with spaces to width `w`. -/
def ljust (s : String) (w : Nat) : String :=
  s ++ String.mk (List.replicate (w - s.length) ' ')

/-- Python string comparison `a <= b`: lexicographic by code point. -/
def pyStrLeChars : List Char → List Char → Bool
  | [], _ => true
  | _ :: _, [] => false
  | a :: as_, b :: bs =>
    if a < b then true
    else if b < a then false
    else pyStrLeChars as_ bs

/-- Python `a <= b` on strings. -/
def pyStrLe (a b : String) : Bool :=
  pyStrLeChars a.data b.data

/-- Sorted insertion (helper of `sortStrings`). -/
def insertSorted (a : String) : List String → List String
  | [] => [a]
  | b :: bs => if pyStrLe a b then a :: b :: bs else b :: insertSorted a bs

/-- Insertion sort by `pyStrLe`; agrees with Python `sorted` on a list
of distinct strings, because a sorted arrangement of a set of distinct
strings is unique. -/
def sortStrings : List String → List String
  | [] => []
  | a :: as_ => insertSorted a (sortStrings as_)

/-- `headers = sorted(all_keys)` (source lines 398-403): the union of
the key sets of all flattened records (a Python `set`, modelled by
`dedup`), sorted. -/
def tableHeaders (dictData : List (List (String × PyVal))) : List String :=
  sortStrings ((dictData.map (fun item => item.map Prod.fst)).flatten).dedup

/-- One table cell before padding: `str(item.get(header, ""))`
(source line 430). -/
def cellStr (item : List (String × PyVal)) (h : String) : String :=
  pyStr ((item.lookup h).getD (.str ""))

/-- Column width (source lines 410-416): the maximum of the header
length and the lengths of `str(item[header])` over the records where
the header is present. -/
def colWidth (dictData : List (List (String × PyVal))) (h : String) : Nat :=
  dictData.foldl
    (fun w item =>
      match item.lookup h with
      | some v => max w (pyStr v).length
      | Option.none => w)
    h.length

/-- The aligned table of the narrow branch (source lines 418-434):
header row of left-justified headers joined by `" | "`, a dash line of
the header row's length, then one row per record with each cell
left-justified to its column width. -/
def renderAlignedTable (dictData : List (List (String × PyVal)))
    (headers : List String) : String :=
  let headerRow := String.intercalate " | "
    (headers.map fun h => ljust h (colWidth dictData h))
  let sep := String.mk (List.replicate headerRow.length '-')
  let rows := dictData.map fun item =>
    String.intercalate " | "
      (headers.map fun h => ljust (cellStr item h) (colWidth dictData h))
  String.intercalate "\n" (headerRow :: sep :: rows)

/-- `max(len(header) for header in headers)` (source line 456).  Python
`max` raises on an empty sequence; the only call site passes at least
11 headers, so the `0` default of the fold is never exercised. -/
def maxFieldWidth (headers : List String) : Nat :=
  (headers.map String.length).foldl max 0

/-- Chunks of 80 code points (source lines 480-481:
`value_str[j : j + 80]` for `j in range(0, len(value_str), 80)`). -/
def chunks80 (l : List Char) : List (List Char) :=
  if l.isEmpty then [] else l.take 80 :: chunks80 (l.drop 80)
termination_by l.length
decreasing_by
  rename_i h
  simp only [List.isEmpty_iff] at h
  have hl : 0 < l.length := List.length_pos.mpr h
  simp only [List.length_drop]
  omega

/-- The displayed form of one multiline value (source lines 470-486):
nested dict/list values are JSON-stringified; a textual representation
longer than 80 code points is broken into 80-point chunks, each on its
own line indented by `maxw + 3` spaces after a leading newline. -/
def multilineValueDisplay (maxw : Nat) (v : PyVal) : String :=
  let valueStr : String :=
    match v with
    | .dict _ => jsonDumps v
    | .list _ => jsonDumps v
    | w => pyStr w
  if 80 < valueStr.length then
    "\n" ++ String.intercalate "\n"
      ((chunks80 valueStr.data).map fun chunk =>
        String.mk (List.replicate (maxw + 3) ' ') ++ String.mk chunk)
  else valueStr

/-- The lines of record number `i` (0-based) in the multiline format
(source lines 458-488): a blank separator before every record but the
first, the 1-based `Record N:` label, a dash line of `maxw + 50`
dashes, then one `header : value` line per header with the header
left-justified to `maxw`. -/
def multilineRecordLines (maxw : Nat) (headers : List String) (i : Nat)
    (item : List (String × PyVal)) : List String :=
  (if 0 < i then [""] else []) ++
    ("Record " ++ toString (i + 1) ++ ":") ::
    String.mk (List.replicate (maxw + 50) '-') ::
    headers.map fun h =>
      ljust h maxw ++ " : " ++
        multilineValueDisplay maxw ((item.lookup h).getD (.str ""))

/-- Model of `format_multiline_table(data, headers)`
(source lines 443-490).  Every element of `dictData` is a dict by
construction, so the source's `if not isinstance(item, dict): continue`
never skips. -/
def format_multiline_table (dictData : List (List (String × PyVal)))
    (headers : List String) : String :=
  let maxw := maxFieldWidth headers
  String.intercalate "\n"
    ((dictData.enum.map fun p => multilineRecordLines maxw headers p.1 p.2).flatten)

/-- Model of `format_table_output(data)` (source lines 324-440).
Branch order follows the source: dict, object with `__dict__`,
non-empty list, then the final `str(data) if data else
"No results found"` (reached by empty lists, `None`, and falsy or
truthy scalars).  In the list branch every flattened item is a dict, so
`dict_data` is non-empty with a dict head and the source's inner
`if not dict_data` guard (line 394) and its simple-values `else`
(lines 435-437) are unreachable. -/
def format_table_output : PyVal → String
  | .dict fields => renderKV fields
  | .obj attrs => renderKV (attrs.filter keepAttr)
  | .list items =>
    if items.isEmpty then "No results found"
    else
      let dictData := items.map processItem
      let headers := tableHeaders dictData
      if 10 < headers.length then format_multiline_table dictData headers
      else renderAlignedTable dictData headers
  | .none => "No results found"
  | .str s => if s.data.isEmpty then "No results found" else s
  | .int n => if n == 0 then "No results found" else toString n
  | .bool b => if b then "True" else "No results found"

/-!
Helper lemmas.
-/

/-- `binReplace` never changes the field name. -/
theorem binReplace_fst (kv : String × PyVal) : (binReplace kv).1 = kv.1 := by
  unfold binReplace
  split <;> rfl

/-- Flattening a dict record keeps exactly its field names, in order. -/
theorem processItem_dict_keys (fields : List (String × PyVal)) :
    (processItem (PyVal.dict fields)).map Prod.fst = fields.map Prod.fst := by
  unfold processItem
  rw [List.map_map]
  exact List.map_congr_left fun kv _ => binReplace_fst kv

/-- `pyStrLe` is total. -/
theorem pyStrLeChars_total (a b : List Char) :
    pyStrLeChars a b = true ∨ pyStrLeChars b a = true := by
  induction a generalizing b with
  | nil => exact Or.inl rfl
  | cons x xs ih =>
    cases b with
    | nil => exact Or.inr rfl
    | cons y ys =>
      show (if x < y then true else if y < x then false else pyStrLeChars xs ys) = true ∨
        (if y < x then true else if x < y then false else pyStrLeChars ys xs) = true
      rcases lt_trichotomy x y with h | h | h
      · left; simp [h]
      · subst h
        simp only [lt_irrefl, if_false]
        exact ih ys
      · right; simp [h]

/-- `pyStrLe` is transitive. -/
theorem pyStrLeChars_trans :
    ∀ {a b c : List Char}, pyStrLeChars a b = true → pyStrLeChars b c = true →
      pyStrLeChars a c = true := by
  intro a
  induction a with
  | nil => intro b c _ _; rfl
  | cons x xs ih =>
    intro b c h1 h2
    cases b with
    | nil => exact absurd h1 (by simp [pyStrLeChars])
    | cons y ys =>
      cases c with
      | nil => exact absurd h2 (by simp [pyStrLeChars])
      | cons z zs =>
        revert h1 h2
        show (if x < y then true else if y < x then false else pyStrLeChars xs ys) = true →
          (if y < z then true else if z < y then false else pyStrLeChars ys zs) = true →
          (if x < z then true else if z < x then false else pyStrLeChars xs zs) = true
        rcases lt_trichotomy x y with hxy | hxy | hxy <;>
          rcases lt_trichotomy y z with hyz | hyz | hyz
        · intro _ _; simp [lt_trans hxy hyz]
        · subst hyz; intro _ _; simp [hxy]
        · intro _ h2
          rw [if_neg (asymm hyz), if_pos hyz] at h2
          exact absurd h2 (by simp)
        · subst hxy; intro _ _; simp [hyz]
        · subst hxy; subst hyz
          simp only [lt_irrefl, if_false]
          exact ih
        · intro _ h2
          rw [if_neg (asymm hyz), if_pos hyz] at h2
          exact absurd h2 (by simp)
        · intro h1 _
          rw [if_neg (asymm hxy), if_pos hxy] at h1
          exact absurd h1 (by simp)
        · subst hyz; intro h1 _
          rw [if_neg (asymm hxy), if_pos hxy] at h1
          exact absurd h1 (by simp)
        · intro h1 _
          rw [if_neg (asymm hxy), if_pos hxy] at h1
          exact absurd h1 (by simp)

/-- `insertSorted` is a permutation of consing. -/
theorem perm_insertSorted (a : String) (l : List String) :
    List.Perm (insertSorted a l) (a :: l) := by
  induction l with
  | nil => exact List.Perm.refl _
  | cons b bs ih =>
    unfold insertSorted
    split
    · exact List.Perm.refl _
    · exact (List.Perm.cons b ih).trans (List.Perm.swap a b bs)

/-- `sortStrings` permutes its input. -/
theorem perm_sortStrings (l : List String) : List.Perm (sortStrings l) l := by
  induction l with
  | nil => exact List.Perm.refl _
  | cons a as_ ih =>
    exact (perm_insertSorted a (sortStrings as_)).trans (List.Perm.cons a ih)

/-- Membership in `sortStrings`. -/
theorem mem_sortStrings {k : String} {l : List String} :
    k ∈ sortStrings l ↔ k ∈ l :=
  (perm_sortStrings l).mem_iff

/-- `insertSorted` preserves sortedness. -/
theorem pairwise_insertSorted (a : String) (l : List String)
    (h : List.Pairwise (fun x y => pyStrLe x y = true) l) :
    List.Pairwise (fun x y => pyStrLe x y = true) (insertSorted a l) := by
  induction l with
  | nil => simp [insertSorted]
  | cons b bs ih =>
    rw [List.pairwise_cons] at h
    unfold insertSorted
    split
    · rename_i hab
      rw [List.pairwise_cons]
      refine ⟨?_, List.pairwise_cons.mpr h⟩
      intro x hx
      rcases List.mem_cons.mp hx with rfl | hx
      · exact hab
      · exact pyStrLeChars_trans hab (h.1 x hx)
    · rename_i hab
      have hba : pyStrLe b a = true := by
        rcases pyStrLeChars_total a.data b.data with ht | ht
        · exact absurd ht hab
        · exact ht
      rw [List.pairwise_cons]
      refine ⟨?_, ih h.2⟩
      intro x hx
      rcases List.mem_cons.mp ((perm_insertSorted a bs).mem_iff.mp hx) with rfl | hx
      · exact hba
      · exact h.1 x hx

/-- `sortStrings` sorts by Python string order. -/
theorem pairwise_sortStrings (l : List String) :
    List.Pairwise (fun x y => pyStrLe x y = true) (sortStrings l) := by
  induction l with
  | nil => exact List.Pairwise.nil
  | cons a as_ ih => exact pairwise_insertSorted a (sortStrings as_) ih

/-- A truthy optional string is a present, non-empty string. -/
theorem truthyStr_spec {o : Option String} (h : truthyStr o = true) :
    ∃ t, o = some t ∧ t ≠ "" := by
  cases o with
  | none => exact absurd h (by simp [truthyStr])
  | some s =>
    refine ⟨s, rfl, ?_⟩
    intro e
    subst e
    exact absurd h (by simp [truthyStr])

/-- A successful resolution comes from a successful seeding, is the
seeded value after overrides and environment fallback, and has passed
the truthiness validation of token and database. -/
theorem resolve_ok_elim {store : IniStore} {args : CliArgs} {env : EnvVars}
    {v : Values} (h : resolve_config_values store args env = .ok v) :
    ∃ v0, seedValues store (args.profile.getD "demo") = .ok v0 ∧
      v = applyEnvFallback env (applyOverrides args v0) ∧
      truthyStr v.token = true ∧ truthyStr v.database = true := by
  unfold resolve_config_values at h
  cases hs : seedValues store (args.profile.getD "demo") with
  | err e => rw [hs] at h; cases h
  | ok v0 =>
    rw [hs] at h
    by_cases ht : truthyStr (applyEnvFallback env (applyOverrides args v0)).token
    · by_cases hd : truthyStr (applyEnvFallback env (applyOverrides args v0)).database
      · simp only [ht, hd, Bool.not_true, Bool.false_eq_true, if_false] at h
        cases h
        exact ⟨v0, rfl, rfl, ht, hd⟩
      · rw [Bool.not_eq_true] at hd
        simp only [ht, hd, Bool.not_true, Bool.not_false, Bool.false_eq_true,
          if_false, if_true] at h
        cases h
    · rw [Bool.not_eq_true] at ht
      simp only [ht, Bool.not_false, if_true] at h
      cases h

/-- A seeding failure propagates out of `resolve_config_values`. -/
theorem resolve_seed_err {store : IniStore} {args : CliArgs} {env : EnvVars}
    {e : ResolveErr} (h : seedValues store (args.profile.getD "demo") = .err e) :
    resolve_config_values store args env = .err e := by
  unfold resolve_config_values
  rw [h]

/-- Neither overrides nor the environment fallback touch `timeout`. -/
theorem resolve_ok_timeout {store : IniStore} {args : CliArgs} {env : EnvVars}
    {v v0 : Values} (hs : seedValues store (args.profile.getD "demo") = .ok v0)
    (h : resolve_config_values store args env = .ok v) :
    v.timeout = v0.timeout := by
  obtain ⟨w0, hw, hv, _, _⟩ := resolve_ok_elim h
  rw [hs] at hw
  cases hw
  rw [hv]
  rfl

/-- A present non-empty string is truthy. -/
theorem truthyStr_some_ne {s : String} (h : s ≠ "") : truthyStr (some s) = true := by
  cases s with
  | mk data =>
    cases data with
    | nil => exact absurd rfl h
    | cons c cs => rfl

/-- Characterization of the flattening of an object record. -/
theorem mem_processItem_obj (attrs : List (String × PyVal)) (kv : String × PyVal) :
    kv ∈ processItem (PyVal.obj attrs) ↔
      ∃ kv0, kv0 ∈ attrs ∧ keepAttr kv0 = true ∧ binReplace kv0 = kv := by
  show kv ∈ (attrs.filter keepAttr).map binReplace ↔ _
  rw [List.mem_map]
  constructor
  · rintro ⟨kv0, h0, rfl⟩
    rw [List.mem_filter] at h0
    exact ⟨kv0, h0.1, h0.2, rfl⟩
  · rintro ⟨kv0, hmem, hkeep, rfl⟩
    exact ⟨kv0, List.mem_filter.mpr ⟨hmem, hkeep⟩, rfl⟩

/-!
The claims.
-/

/-- C2: for string values under a field name with no deny-listed
substring, `is_binary_field` classifies as Binary exactly the strings
longer than 200 code points whose characters all lie in
`[A-Za-z0-9+/=\s]`; in particular a 250-character pure base64-alphabet
string is Binary, a 250-character string with one character outside the
class is Plain, and every string of at most 100 characters is Plain
regardless of alphabet; any value under a deny-listed field name
(such as `Cert_TemplateFile`) is Binary. -/
theorem C2_binary_classification :
    (∀ (name : String) (s : String), nameIndicatesBinary name = false →
      is_binary_field name (.str s) =
        (decide (200 < s.length) && s.data.all b64Char)) ∧
    (∀ (name : String) (v : PyVal), nameIndicatesBinary name = true →
      is_binary_field name v = true) ∧
    (∀ (name : String) (s : String), nameIndicatesBinary name = false →
      s.length ≤ 100 → is_binary_field name (.str s) = false) ∧
    is_binary_field "x" (.str (String.mk (List.replicate 250 'A'))) = true ∧
    is_binary_field "x" (.str (String.mk ('@' :: List.replicate 249 'A'))) = false ∧
    nameIndicatesBinary "Cert_TemplateFile" = true := by
  have key : ∀ (name : String) (s : String), nameIndicatesBinary name = false →
      is_binary_field name (.str s) =
        (decide (200 < s.length) && s.data.all b64Char) := by
    intro name s h
    unfold is_binary_field
    rw [if_neg (by simp [h])]
    show (if (decide (100 < s.length) &&
        (b64Match s && decide (200 < s.length))) = true then true else false) =
      (decide (200 < s.length) && s.data.all b64Char)
    unfold b64Match
    have hlen : s.length = s.data.length := rfl
    by_cases h200 : 200 < s.length
    · have h100 : (decide (100 < s.length)) = true := by simp; omega
      have hne : s.data.isEmpty = false := by
        rw [List.isEmpty_eq_false_iff_exists_mem]
        cases hd : s.data with
        | nil => rw [hlen, hd] at h200; simp at h200
        | cons c cs => exact ⟨c, by simp [hd]⟩
      cases hall : s.data.all b64Char <;> simp [h100, hne, h200, hall]
    · have : (decide (200 < s.length)) = false := by simpa using h200
      simp [this]
  refine ⟨key, ?_, ?_, ?_, ?_, ?_⟩
  · intro name v h
    unfold is_binary_field
    rw [if_pos (by simp [h])]
  · intro name s h h100
    rw [key name s h]
    have : (decide (200 < s.length)) = false := by simp; omega
    simp [this]
  · decide
  · decide
  · decide

/-- Witness for C2: the characterization applied to a non-deny-listed
name with a 250-character base64 string, a deny-listed name, and a
90-character string. -/
theorem C2_binary_classification_witness :
    is_binary_field "Notes" (.str (String.mk (List.replicate 250 'A'))) =
      (decide (200 < (String.mk (List.replicate 250 'A')).length) &&
        (String.mk (List.replicate 250 'A')).data.all b64Char) ∧
    is_binary_field "Cert_TemplateFile" (.str "hi") = true ∧
    is_binary_field "Notes" (.str (String.mk (List.replicate 90 '@'))) = false :=
  ⟨C2_binary_classification.1 "Notes" (String.mk (List.replicate 250 'A')) (by decide),
   C2_binary_classification.2.1 "Cert_TemplateFile" (.str "hi") (by decide),
   C2_binary_classification.2.2.1 "Notes" (String.mk (List.replicate 90 '@'))
     (by decide) (by decide)⟩

/-- C7: the environment string maps to {US, CANADA, AUSTRALIA}
case-insensitively through the fixed alias table, and every string
whose lower-casing is outside the table maps to US without raising. -/
theorem C7_environment_mapping :
    (∀ s : String, pyLower s = "us" ∨ pyLower s = "usa" →
      mapEnvironmentString s = Environment.US) ∧
    (∀ s : String, pyLower s = "can" ∨ pyLower s = "canada" →
      mapEnvironmentString s = Environment.CANADA) ∧
    (∀ s : String, pyLower s = "aus" ∨ pyLower s = "australia" →
      mapEnvironmentString s = Environment.AUSTRALIA) ∧
    (∀ s : String,
      pyLower s ∉ (["us", "usa", "can", "canada", "aus", "australia"] : List String) →
      mapEnvironmentString s = Environment.US) := by
  refine ⟨?_, ?_, ?_, ?_⟩
  · intro s h
    unfold mapEnvironmentString
    rcases h with h | h <;> rw [h] <;> decide
  · intro s h
    unfold mapEnvironmentString
    rcases h with h | h <;> rw [h] <;> decide
  · intro s h
    unfold mapEnvironmentString
    rcases h with h | h <;> rw [h] <;> decide
  · intro s h
    simp only [List.mem_cons, List.not_mem_nil, or_false, not_or] at h
    obtain ⟨h1, h2, h3, h4, h5, h6⟩ := h
    unfold mapEnvironmentString env_map
    have b1 : (pyLower s == "us") = false := beq_eq_false_iff_ne.mpr h1
    have b2 : (pyLower s == "usa") = false := beq_eq_false_iff_ne.mpr h2
    have b3 : (pyLower s == "can") = false := beq_eq_false_iff_ne.mpr h3
    have b4 : (pyLower s == "canada") = false := beq_eq_false_iff_ne.mpr h4
    have b5 : (pyLower s == "aus") = false := beq_eq_false_iff_ne.mpr h5
    have b6 : (pyLower s == "australia") = false := beq_eq_false_iff_ne.mpr h6
    simp [List.lookup, b1, b2, b3, b4, b5, b6]

/-- Witness for C7: alias members of each case and an unrecognized
string. -/
theorem C7_environment_mapping_witness :
    mapEnvironmentString "USA" = Environment.US ∧
    mapEnvironmentString "Canada" = Environment.CANADA ∧
    mapEnvironmentString "aus" = Environment.AUSTRALIA ∧
    mapEnvironmentString "bogus" = Environment.US :=
  ⟨C7_environment_mapping.1 "USA" (Or.inr (by decide)),
   C7_environment_mapping.2.1 "Canada" (Or.inr (by decide)),
   C7_environment_mapping.2.2.1 "aus" (Or.inl (by decide)),
   C7_environment_mapping.2.2.2 "bogus" (by decide)⟩

/-- C3: for a non-empty list of record mappings rendered in text mode,
the column headers are the union of all field names across the records,
without duplicates and sorted by Python string order, and the renderer
produces the aligned table for at most 10 headers and the
one-block-per-record multiline format for 11 or more headers, on
identical input data. -/
theorem C3_table_dispatch (records : List (List (String × PyVal)))
    (hne : records ≠ []) :
    let dictData := (records.map PyVal.dict).map processItem
    let headers := tableHeaders dictData
    List.Pairwise (fun a b => pyStrLe a b = true) headers ∧
    headers.Nodup ∧
    (∀ k, k ∈ headers ↔ ∃ fs ∈ records, k ∈ fs.map Prod.fst) ∧
    (headers.length ≤ 10 →
      format_table_output (.list (records.map PyVal.dict)) =
        renderAlignedTable dictData headers) ∧
    (10 < headers.length →
      format_table_output (.list (records.map PyVal.dict)) =
        format_multiline_table dictData headers) := by
  intro dictData headers
  have hempty : (records.map PyVal.dict).isEmpty = false := by
    cases records with
    | nil => exact absurd rfl hne
    | cons r rs => rfl
  have hout : format_table_output (.list (records.map PyVal.dict)) =
      if 10 < headers.length then format_multiline_table dictData headers
      else renderAlignedTable dictData headers := by
    show (if (records.map PyVal.dict).isEmpty then "No results found"
      else
        let dd := (records.map PyVal.dict).map processItem
        let hs := tableHeaders dd
        if 10 < hs.length then format_multiline_table dd hs
        else renderAlignedTable dd hs) = _
    rw [if_neg (by rw [hempty]; exact Bool.false_ne_true)]
  refine ⟨pairwise_sortStrings _, (perm_sortStrings _).nodup_iff.mpr (List.nodup_dedup _),
    ?_, ?_, ?_⟩
  · intro k
    show k ∈ sortStrings ((dictData.map (fun item => item.map Prod.fst)).flatten).dedup ↔ _
    rw [mem_sortStrings, List.mem_dedup, List.mem_flatten]
    constructor
    · rintro ⟨l, hl, hkl⟩
      rw [List.mem_map] at hl
      obtain ⟨item, hitem, rfl⟩ := hl
      rw [show dictData = records.map (fun fs => processItem (PyVal.dict fs)) from
        List.map_map .., List.mem_map] at hitem
      obtain ⟨fs, hfs, rfl⟩ := hitem
      rw [processItem_dict_keys] at hkl
      exact ⟨fs, hfs, hkl⟩
    · rintro ⟨fs, hfs, hk⟩
      refine ⟨(processItem (PyVal.dict fs)).map Prod.fst, List.mem_map.mpr
        ⟨processItem (PyVal.dict fs), ?_, rfl⟩, ?_⟩
      · rw [show dictData = records.map (fun fs => processItem (PyVal.dict fs)) from
          List.map_map .., List.mem_map]
        exact ⟨fs, hfs, rfl⟩
      · rw [processItem_dict_keys]
        exact hk
  · intro hlen
    rw [hout, if_neg (by omega)]
  · intro hlen
    rw [hout, if_pos hlen]

/-- Witness for C3: one record with 10 fields renders as the aligned
table, one record with 11 fields renders as the multiline format. -/
theorem C3_table_dispatch_witness :
    format_table_output (.list ([[("k01", PyVal.int 1), ("k02", PyVal.int 2),
        ("k03", PyVal.int 3), ("k04", PyVal.int 4), ("k05", PyVal.int 5),
        ("k06", PyVal.int 6), ("k07", PyVal.int 7), ("k08", PyVal.int 8),
        ("k09", PyVal.int 9), ("k10", PyVal.int 10)]].map PyVal.dict)) =
      renderAlignedTable
        (([[("k01", PyVal.int 1), ("k02", PyVal.int 2), ("k03", PyVal.int 3),
          ("k04", PyVal.int 4), ("k05", PyVal.int 5), ("k06", PyVal.int 6),
          ("k07", PyVal.int 7), ("k08", PyVal.int 8), ("k09", PyVal.int 9),
          ("k10", PyVal.int 10)]].map PyVal.dict).map processItem)
        (tableHeaders (([[("k01", PyVal.int 1), ("k02", PyVal.int 2),
          ("k03", PyVal.int 3), ("k04", PyVal.int 4), ("k05", PyVal.int 5),
          ("k06", PyVal.int 6), ("k07", PyVal.int 7), ("k08", PyVal.int 8),
          ("k09", PyVal.int 9), ("k10", PyVal.int 10)]].map PyVal.dict).map
            processItem)) ∧
    format_table_output (.list ([[("k01", PyVal.int 1), ("k02", PyVal.int 2),
        ("k03", PyVal.int 3), ("k04", PyVal.int 4), ("k05", PyVal.int 5),
        ("k06", PyVal.int 6), ("k07", PyVal.int 7), ("k08", PyVal.int 8),
        ("k09", PyVal.int 9), ("k10", PyVal.int 10),
        ("k11", PyVal.int 11)]].map PyVal.dict)) =
      format_multiline_table
        (([[("k01", PyVal.int 1), ("k02", PyVal.int 2), ("k03", PyVal.int 3),
          ("k04", PyVal.int 4), ("k05", PyVal.int 5), ("k06", PyVal.int 6),
          ("k07", PyVal.int 7), ("k08", PyVal.int 8), ("k09", PyVal.int 9),
          ("k10", PyVal.int 10), ("k11", PyVal.int 11)]].map PyVal.dict).map
            processItem)
        (tableHeaders (([[("k01", PyVal.int 1), ("k02", PyVal.int 2),
          ("k03", PyVal.int 3), ("k04", PyVal.int 4), ("k05", PyVal.int 5),
          ("k06", PyVal.int 6), ("k07", PyVal.int 7), ("k08", PyVal.int 8),
          ("k09", PyVal.int 9), ("k10", PyVal.int 10),
          ("k11", PyVal.int 11)]].map PyVal.dict).map processItem)) :=
  ⟨(C3_table_dispatch [[("k01", PyVal.int 1), ("k02", PyVal.int 2),
      ("k03", PyVal.int 3), ("k04", PyVal.int 4), ("k05", PyVal.int 5),
      ("k06", PyVal.int 6), ("k07", PyVal.int 7), ("k08", PyVal.int 8),
      ("k09", PyVal.int 9), ("k10", PyVal.int 10)]]
      (List.cons_ne_nil _ _)).2.2.2.1 (by decide),
   (C3_table_dispatch [[("k01", PyVal.int 1), ("k02", PyVal.int 2),
      ("k03", PyVal.int 3), ("k04", PyVal.int 4), ("k05", PyVal.int 5),
      ("k06", PyVal.int 6), ("k07", PyVal.int 7), ("k08", PyVal.int 8),
      ("k09", PyVal.int 9), ("k10", PyVal.int 10), ("k11", PyVal.int 11)]]
      (List.cons_ne_nil _ _)).2.2.2.2 (by decide)⟩

/-- C8 counterexample: the claim says flattening drops fields whose
value is absent for plain mappings as well, but a dict record with a
`None`-valued field keeps it: the field appears in the headers and its
cell renders as `None`, not as a dropped field. -/
theorem C8_counterexample :
    processItem (PyVal.dict [("a", PyVal.none)]) = [("a", PyVal.none)] ∧
    format_table_output (PyVal.list [PyVal.dict [("a", PyVal.none)]]) =
      "a   " ++ "\n" ++ "----" ++ "\n" ++ "None" :=
  ⟨rfl, by decide⟩

/-- C8 (amended): flattening of an attribute-bearing object drops
private/internal fields and fields whose value is `None` (and applies
binary replacement); a plain mapping record keeps every field —
including `None`-valued ones — with only binary replacement applied;
surviving object fields are never `None`-valued; and a field missing
from a record renders as the empty string in that record's table
cell. -/
theorem C8_flattening :
    (∀ attrs kv, kv ∈ processItem (PyVal.obj attrs) ↔
      ∃ kv0, kv0 ∈ attrs ∧ keepAttr kv0 = true ∧ binReplace kv0 = kv) ∧
    (∀ fields, (processItem (PyVal.dict fields)).map Prod.fst =
      fields.map Prod.fst) ∧
    (∀ attrs kv, kv ∈ processItem (PyVal.obj attrs) → kv.2.isNone = false) ∧
    (∀ item h, List.lookup h item = Option.none → cellStr item h = "") := by
  refine ⟨mem_processItem_obj, processItem_dict_keys, ?_, ?_⟩
  · intro attrs kv hkv
    obtain ⟨kv0, _, hkeep, heq⟩ := (mem_processItem_obj attrs kv).mp hkv
    unfold keepAttr at hkeep
    rw [Bool.and_eq_true, Bool.and_eq_true] at hkeep
    have hnone : kv0.2.isNone = false := by
      have := hkeep.2
      cases h0 : kv0.2.isNone <;> simp [h0] at this ⊢
    unfold binReplace at heq
    split at heq
    · rw [← heq]
      rfl
    · rw [← heq]
      exact hnone
  · intro item h hnone
    unfold cellStr
    rw [hnone]
    rfl

/-- Witness for C8: a surviving object attribute is not `None`, and a
missing field's cell is empty. -/
theorem C8_flattening_witness :
    ("b", PyVal.int 1).2.isNone = false ∧
    cellStr [("b", PyVal.int 1)] "a" = "" :=
  ⟨C8_flattening.2.2.1 [("b", PyVal.int 1)] ("b", PyVal.int 1) (List.Mem.head _),
   C8_flattening.2.2.2 [("b", PyVal.int 1)] "a" rfl⟩

/-- C9 counterexample: the claim says an empty mapping renders as
"No results found", but `format_table_output({})` takes the
`isinstance(data, dict)` branch first and returns the empty string. -/
theorem C9_counterexample :
    format_table_output (PyVal.dict []) = "" ∧
    format_table_output (PyVal.dict []) ≠ "No results found" := by
  refine ⟨rfl, by decide⟩

/-- C9 (amended): an empty sequence and an absent (`None`) value render
as the literal "No results found"; an empty mapping instead renders as
the empty string, because the single-mapping branch is checked before
truthiness. -/
theorem C9_empty_rendering :
    format_table_output (PyVal.list []) = "No results found" ∧
    format_table_output PyVal.none = "No results found" ∧
    format_table_output (PyVal.dict []) = "" := by
  refine ⟨rfl, rfl, rfl⟩

/-- C1 counterexample: with a stored profile whose `timeout` value is
not parsable as an integer, resolution raises `configparser`'s
`ValueError` (from `getint`) rather than returning a settings record or
raising a `ValidationError`, so the error taxonomy of the claim as
stated fails. -/
theorem C1_counterexample :
    resolve_config_values
        [("prod", [("token", "tok"), ("database", "db"), ("timeout", "soon")])]
        ⟨some "prod", Option.none, Option.none, Option.none⟩
        ⟨Option.none, Option.none⟩ =
      .err ResolveErr.intParseError ∧
    isValidationErr ResolveErr.intParseError = false := by
  exact ⟨rfl, rfl⟩

/-- C1 (amended): resolution never returns a record with an empty or
missing token or database — a successful result always carries both as
present non-empty strings; every raised error is a `ValidationError`,
except that an unparsable stored `timeout` raises a `ValueError`. -/
theorem C1_resolution_invariant :
    (∀ (store : IniStore) (args : CliArgs) (env : EnvVars) (v : Values),
      resolve_config_values store args env = .ok v →
        (∃ t, v.token = some t ∧ t ≠ "") ∧ (∃ d, v.database = some d ∧ d ≠ "")) ∧
    (∀ (store : IniStore) (args : CliArgs) (env : EnvVars) (e : ResolveErr),
      resolve_config_values store args env = .err e →
        isValidationErr e = true ∨ e = ResolveErr.intParseError) := by
  constructor
  · intro store args env v h
    obtain ⟨v0, _, _, ht, hd⟩ := resolve_ok_elim h
    exact ⟨truthyStr_spec ht, truthyStr_spec hd⟩
  · intro store args env e _
    cases e with
    | intParseError => exact Or.inr rfl
    | profileNotFound available => exact Or.inl rfl
    | tokenRequired => exact Or.inl rfl
    | databaseRequired => exact Or.inl rfl

/-- Witness for C1: a stored profile with token and database resolves
to a record carrying both as non-empty strings. -/
theorem C1_resolution_invariant_witness :
    (∃ t, (some "tok" : Option String) = some t ∧ t ≠ "") ∧
    (∃ d, (some "db" : Option String) = some d ∧ d ≠ "") :=
  C1_resolution_invariant.1
    [("prod", [("token", "tok"), ("database", "db")])]
    ⟨some "prod", Option.none, Option.none, Option.none⟩
    ⟨Option.none, Option.none⟩
    ⟨some "tok", some "db", "us", 30⟩ rfl

/-- C6 counterexample: a stored `timeout` value that is not parsable as
an integer does not resolve to the default 30 — resolution raises a
`ValueError` instead. -/
theorem C6_counterexample :
    pyInt? "fast" = Option.none ∧
    resolve_config_values
        [("acme", [("token", "t1"), ("database", "d1"), ("timeout", "fast")])]
        ⟨some "acme", Option.none, Option.none, Option.none⟩
        ⟨Option.none, Option.none⟩ =
      .err ResolveErr.intParseError := by
  exact ⟨rfl, rfl⟩

/-- C6 (amended): for a stored profile section, resolution yields
timeout 30 when the `timeout` key is absent, the stored integer value
when it parses, and raises an error (`ValueError`, not a default of 30)
when the stored value is unparsable. -/
theorem C6_timeout_resolution (store : IniStore) (args : CliArgs) (env : EnvVars)
    (sect : IniSection)
    (hsect : store.lookup (args.profile.getD "demo") = some sect) :
    (sect.lookup "timeout" = Option.none →
      ∀ v, resolve_config_values store args env = .ok v → v.timeout = 30) ∧
    (∀ ts n, sect.lookup "timeout" = some ts → pyInt? ts = some n →
      ∀ v, resolve_config_values store args env = .ok v → v.timeout = n) ∧
    (∀ ts, sect.lookup "timeout" = some ts → pyInt? ts = Option.none →
      resolve_config_values store args env = .err ResolveErr.intParseError) := by
  refine ⟨?_, ?_, ?_⟩
  · intro hto v hv
    have hs : seedValues store (args.profile.getD "demo") =
        .ok { token := sect.lookup "token", database := sect.lookup "database",
              environment := (sect.lookup "environment").getD "us", timeout := 30 } := by
      unfold seedValues
      simp only [hsect, hto]
    exact resolve_ok_timeout hs hv
  · intro ts n hto hpi v hv
    have hs : seedValues store (args.profile.getD "demo") =
        .ok { token := sect.lookup "token", database := sect.lookup "database",
              environment := (sect.lookup "environment").getD "us", timeout := n } := by
      unfold seedValues
      simp only [hsect, hto, hpi]
    exact resolve_ok_timeout hs hv
  · intro ts hto hpi
    apply resolve_seed_err
    unfold seedValues
    simp only [hsect, hto, hpi]

/-- C4 counterexample: with both dates supplied, a malformed start
string and a well-formed in-range end string, normalization succeeds
and raises nothing — the claim that any malformed supplied date fails
with a `ValidationError` is false in the both-given case. -/
theorem C4_counterexample :
    parseDate "garbage" = Option.none ∧
    apply_default_date_ranges (toOrdinal 2024 1 10)
        ⟨some "garbage", some "01/02/2024", false⟩ =
      .ok ⟨some "garbage", some "01/02/2024", false⟩ := by
  exact ⟨rfl, by decide⟩

/-- C4 (amended): a malformed date string raises its format-specific
`ValidationError` exactly in the branches that parse it — the end
string in the end-only and both-given branches, the start string in the
start-only branch; when both dates are supplied the start string is
never parsed, so normalization succeeds whenever the end string is
well-formed and in range, regardless of the start string. -/
theorem C4_format_validation :
    (∀ (today : Int) (args : DateArgs) (e : String),
      args.end_date = some e → e ≠ "" → truthyStr args.start_date = false →
      parseDate e = Option.none →
      apply_default_date_ranges today args = .err DateError.endFormatInvalid) ∧
    (∀ (today : Int) (args : DateArgs) (s : String),
      args.start_date = some s → s ≠ "" → truthyStr args.end_date = false →
      parseDate s = Option.none →
      apply_default_date_ranges today args = .err DateError.startFormatInvalid) ∧
    (∀ (today : Int) (args : DateArgs) (s e : String),
      args.start_date = some s → s ≠ "" → args.end_date = some e → e ≠ "" →
      parseDate e = Option.none →
      apply_default_date_ranges today args = .err DateError.endFormatInvalid) ∧
    (∀ (today : Int) (args : DateArgs) (s e : String) (ed : Int),
      args.start_date = some s → s ≠ "" → args.end_date = some e → e ≠ "" →
      parseDate e = some ed → ed ≤ today + 1 →
      apply_default_date_ranges today args = .ok args) := by
  refine ⟨?_, ?_, ?_, ?_⟩
  · intro today args e he hene hst hp
    have hte : truthyStr args.end_date = true := he ▸ truthyStr_some_ne hene
    unfold apply_default_date_ranges
    rw [hte, hst, he]
    simp [hp]
  · intro today args s hs hsne hte hp
    have hts : truthyStr args.start_date = true := hs ▸ truthyStr_some_ne hsne
    unfold apply_default_date_ranges
    rw [hts, hte, hs]
    simp [hp]
  · intro today args s e hs hsne he hene hp
    have hts : truthyStr args.start_date = true := hs ▸ truthyStr_some_ne hsne
    have hte : truthyStr args.end_date = true := he ▸ truthyStr_some_ne hene
    unfold apply_default_date_ranges
    rw [hts, hte, he]
    simp [hp]
  · intro today args s e ed hs hsne he hene hp hlate
    have hts : truthyStr args.start_date = true := hs ▸ truthyStr_some_ne hsne
    have hte : truthyStr args.end_date = true := he ▸ truthyStr_some_ne hene
    unfold apply_default_date_ranges
    rw [hts, hte, he]
    simp only [Bool.not_true, Bool.and_false, Bool.false_and, Bool.false_eq_true,
      if_false, Option.getD_some, hp]
    rw [if_neg (by omega)]

/-- Witness for C4: each branch exercised on a concrete malformed or
well-formed date. -/
theorem C4_format_validation_witness :
    apply_default_date_ranges (toOrdinal 2024 3 4)
        ⟨Option.none, some "bad", false⟩ = .err DateError.endFormatInvalid ∧
    apply_default_date_ranges (toOrdinal 2024 3 4)
        ⟨some "bad", Option.none, false⟩ = .err DateError.startFormatInvalid ∧
    apply_default_date_ranges (toOrdinal 2024 3 4)
        ⟨some "03/01/2024", some "bad", false⟩ = .err DateError.endFormatInvalid ∧
    apply_default_date_ranges (toOrdinal 2024 3 4)
        ⟨some "not-a-date", some "03/04/2024", false⟩ =
      .ok ⟨some "not-a-date", some "03/04/2024", false⟩ :=
  ⟨C4_format_validation.1 (toOrdinal 2024 3 4) ⟨Option.none, some "bad", false⟩
      "bad" rfl (by decide) rfl (by decide),
   C4_format_validation.2.1 (toOrdinal 2024 3 4) ⟨some "bad", Option.none, false⟩
      "bad" rfl (by decide) rfl (by decide),
   C4_format_validation.2.2.1 (toOrdinal 2024 3 4)
      ⟨some "03/01/2024", some "bad", false⟩ "03/01/2024" "bad" rfl (by decide)
      rfl (by decide) (by decide),
   C4_format_validation.2.2.2 (toOrdinal 2024 3 4)
      ⟨some "not-a-date", some "03/04/2024", false⟩ "not-a-date" "03/04/2024"
      (toOrdinal 2024 3 4) rfl (by decide) rfl (by decide) (by decide) (by decide)⟩

/-- C5: for a well-formed start date with no end date, normalization
succeeds and sets the end date to start plus 31 days, clamped to today
when that would exceed today plus one day. -/
theorem C5_start_only_defaulting (today : Int) (args : DateArgs) (s : String)
    (sd : Int) (hs : args.start_date = some s) (hsne : s ≠ "")
    (hte : truthyStr args.end_date = false) (hp : parseDate s = some sd) :
    apply_default_date_ranges today args =
      .ok { args with
            end_date := some (formatDate
              (if today + 2 ≤ sd + 31 then today else sd + 31)) } := by
  have hts : truthyStr args.start_date = true := hs ▸ truthyStr_some_ne hsne
  unfold apply_default_date_ranges
  rw [hts, hte, hs]
  simp [hp]

/-- Witness for C5: `06/01/2024` with a far-future today yields end
`07/02/2024` (start plus 31 days); with today `06/15/2024` the end is
clamped to today. -/
theorem C5_start_only_defaulting_witness :
    apply_default_date_ranges (toOrdinal 2024 12 31)
        ⟨some "06/01/2024", Option.none, false⟩ =
      .ok ⟨some "06/01/2024", some "07/02/2024", false⟩ ∧
    apply_default_date_ranges (toOrdinal 2024 6 15)
        ⟨some "06/01/2024", Option.none, false⟩ =
      .ok ⟨some "06/01/2024", some "06/15/2024", false⟩ := by
  constructor
  · have h := C5_start_only_defaulting (toOrdinal 2024 12 31)
      ⟨some "06/01/2024", Option.none, false⟩ "06/01/2024" (toOrdinal 2024 6 1)
      rfl (by decide) rfl (by decide)
    exact h.trans (by decide)
  · have h := C5_start_only_defaulting (toOrdinal 2024 6 15)
      ⟨some "06/01/2024", Option.none, false⟩ "06/01/2024" (toOrdinal 2024 6 1)
      rfl (by decide) rfl (by decide)
    exact h.trans (by decide)

/-- C10: normalization imposes no ordering between the two dates — with
both dates supplied well-formed and the end date at most one day after
today, it succeeds and leaves both unchanged, with no constraint
relating start to end. -/
theorem C10_no_ordering (today : Int) (args : DateArgs) (s e : String)
    (sd ed : Int) (hs : args.start_date = some s) (hsne : s ≠ "")
    (he : args.end_date = some e) (hene : e ≠ "")
    (_hps : parseDate s = some sd) (hpe : parseDate e = some ed)
    (hlate : ed ≤ today + 1) :
    apply_default_date_ranges today args = .ok args := by
  have hts : truthyStr args.start_date = true := hs ▸ truthyStr_some_ne hsne
  have hte : truthyStr args.end_date = true := he ▸ truthyStr_some_ne hene
  unfold apply_default_date_ranges
  rw [hts, hte, he]
  simp only [Bool.not_true, Bool.and_false, Bool.false_and, Bool.false_eq_true,
    if_false, Option.getD_some, hpe]
  rw [if_neg (by omega)]

/-- Witness for C10: start `07/04/2024` strictly after end `01/02/2024`
is accepted unchanged. -/
theorem C10_no_ordering_witness :
    apply_default_date_ranges (toOrdinal 2024 12 31)
        ⟨some "07/04/2024", some "01/02/2024", false⟩ =
      .ok ⟨some "07/04/2024", some "01/02/2024", false⟩ :=
  C10_no_ordering (toOrdinal 2024 12 31)
    ⟨some "07/04/2024", some "01/02/2024", false⟩ "07/04/2024" "01/02/2024"
    (toOrdinal 2024 7 4) (toOrdinal 2024 1 2) rfl (by decide) rfl (by decide)
    (by decide) (by decide) (by decide)

/-- Witness for C6: an absent `timeout` resolves to 30, a stored
`timeout` of `"45"` resolves to 45. -/
theorem C6_timeout_resolution_witness :
    (Values.timeout ⟨some "t", some "d", "us", 30⟩ = 30) ∧
    (Values.timeout ⟨some "t", some "d", "us", 45⟩ = 45) :=
  ⟨(C6_timeout_resolution [("p1", [("token", "t"), ("database", "d")])]
      ⟨some "p1", Option.none, Option.none, Option.none⟩
      ⟨Option.none, Option.none⟩ [("token", "t"), ("database", "d")] rfl).1
      rfl ⟨some "t", some "d", "us", 30⟩ rfl,
   (C6_timeout_resolution
      [("p2", [("token", "t"), ("database", "d"), ("timeout", "45")])]
      ⟨some "p2", Option.none, Option.none, Option.none⟩
      ⟨Option.none, Option.none⟩
      [("token", "t"), ("database", "d"), ("timeout", "45")] rfl).2.1
      "45" 45 rfl rfl ⟨some "t", some "d", "us", 45⟩ rfl⟩

end TmoApi


